import Mathlib

/-!
# Verification of the tweet-likers caching/throttling proxy

A shallow embedding of `src/main.py` (FastAPI service "Tweet Likers
Service"): a single request handler `get_tweet_likers` that serves
repeat queries from a TTL cache and enforces a global minimum interval
between upstream calls.

Modelling conventions:
* `time.time()` values are rationals (`ℚ`).  The handler samples the
  clock twice: once at the gate check (line 65 of `main.py`), and once
  more in the failure branches (lines 95/116); these two samples are the
  parameters `now` and `now2`.
* The network is an oracle: the outcome of `requests.get` plus
  `response.json()` is passed in as an `UpstreamResult`.
* Python exceptions that escape the handler are modelled by
  `Except PyError`.  `requests.RequestException` (transport errors and,
  in requests >= 2.27, JSON decode errors) is caught by the handler's
  `except` clause and therefore never escapes; `AttributeError` raised
  by `x.get(...)` on a non-dict is not caught.
* The `cachetools.TTLCache(maxsize=100, ttl=900)` is modelled as an
  association list of entries with insertion timestamps; an entry is
  visible while `now - insertedAt < ttl`.  Capacity eviction
  (`maxsize=100`) is not modelled; the claims about the cache condition
  on its absence.
-/

namespace TweetLikers

/-- JSON values, the payloads parsed by `response.json()`. -/
inductive Json where
  | null : Json
  | bool (b : Bool) : Json
  | num (q : ℚ) : Json
  | str (s : String) : Json
  | arr (elems : List Json) : Json
  | obj (fields : List (String × Json)) : Json
deriving Repr

/-- Python exceptions that can escape the handler (not caught by its
`except requests.RequestException` clause). -/
inductive PyError where
  | attributeError : PyError
deriving DecidableEq, Repr

/-- Python `d.get(key, dflt)`: on a dict, the value at `key` or `dflt`;
on any non-dict value it raises `AttributeError`. -/
def Json.get (j : Json) (key : String) (dflt : Json) : Except PyError Json :=
  match j with
  | .obj fields =>
      match fields.find? (fun f => f.1 = key) with
      | some f => .ok f.2
      | none => .ok dflt
  | _ => .error .attributeError

/-- Python `d.get(key)` (single argument): default is `None`. -/
def Json.get1 (j : Json) (key : String) : Except PyError Json :=
  j.get key .null

/-- `REQUEST_INTERVAL = 300` (line 40 of `main.py`). -/
def REQUEST_INTERVAL : ℤ := 300

/-- TTL of the cache, `ttl=900` (line 42 of `main.py`). -/
def CACHE_TTL : ℚ := 900

/-- One entry of the TTL cache: key, insertion time, stored payload. -/
structure CacheEntry where
  key : String
  insertedAt : ℚ
  value : Json
deriving Repr

/-- TTLCache lookup: the entry for `key`, provided it has not expired
(`now - insertedAt < ttl`); expired or absent entries are a miss. -/
def cacheLookup (cache : List CacheEntry) (key : String) (now : ℚ) : Option Json :=
  match cache.find? (fun e => e.key = key) with
  | some e => if now - e.insertedAt < CACHE_TTL then some e.value else none
  | none => none

/-- TTLCache insertion `cache[key] = v`: overwrites any previous entry
for `key` with a fresh timestamp. -/
def cacheInsert (cache : List CacheEntry) (key : String) (now : ℚ) (v : Json) :
    List CacheEntry :=
  ⟨key, now, v⟩ :: cache.filter (fun e => e.key ≠ key)

/-- The mutable module state of `main.py`: `last_request_time` (line 41)
and `cache` (line 42). -/
structure ServerState where
  last_request_time : ℚ
  cache : List CacheEntry
deriving Repr

/-- Initial state: `last_request_time = 0`, empty cache. -/
def initialState : ServerState := { last_request_time := 0, cache := [] }

/-- Outcome of the upstream interaction `requests.get` + `response.json()`:
either a response with a status code and a body-parse outcome
(`Except.error` = the body is not valid JSON, raising
`requests.JSONDecodeError`, a `RequestException`), or a transport error
(`requests.RequestException` raised by `requests.get` itself). -/
inductive UpstreamResult where
  | response (status_code : ℕ) (body : Except Unit Json) : UpstreamResult
  | transportError : UpstreamResult
deriving Repr

/-- The JSON body of the handler's `JSONResponse`s, together with the
HTTP status code and `Retry-After` header. -/
structure LikersResponse where
  likers : Json
  meta : Json
  next_token : Json
  cached : Bool
  message : Option String
  status_code : ℕ
  retry_after : Option ℤ
deriving Repr

/-- Python `int(q)`: truncation toward zero. -/
def pyInt (q : ℚ) : ℤ := if 0 ≤ q then ⌊q⌋ else -⌊-q⌋

/-- The 429 throttled response body built at lines 69-75, 98-104 and
119-125 of `main.py` (all three sites build the identical shape). -/
def throttledResponse (wait_time : ℤ) : LikersResponse :=
  { likers := .arr []
    meta := .obj [("result_count", .num 0)]
    next_token := .null
    cached := false
    message := some ("Please wait " ++ toString wait_time ++ " seconds for updated data.")
    status_code := 429
    retry_after := some wait_time }

/-- The wait time computed after a failed upstream attempt (lines 95-97
and 116-118): `int(REQUEST_INTERVAL - (time.time() - last_request_time))`,
replaced by the full `REQUEST_INTERVAL` when negative.  Here `now2` is
the fresh `time.time()` sample and `last` the committed timestamp. -/
def failWait (now2 last : ℚ) : ℤ :=
  let w := pyInt ((REQUEST_INTERVAL : ℚ) - (now2 - last))
  if w < 0 then REQUEST_INTERVAL else w

/-- `cache_key = f"{tweet_id}_{next_token or 'none'}"` (line 53).
Python's `or` treats the empty string as falsy, so both `None` and `""`
become `"none"`. -/
def cache_key (tweet_id : String) (next_token : Option String) : String :=
  tweet_id ++ "_" ++
    (match next_token with
     | some s => if s = "" then "none" else s
     | none => "none")

/-- The response dict built at lines 57-62 (cache hit, `cached := true`)
and 108-113 (fresh success, `cached := false`); both evaluate
`data.get("data", [])`, `data.get("meta", {})` and
`data.get("meta", {}).get("next_token")`, each of which raises
`AttributeError` when applied to a non-dict. -/
def buildPayloadResponse (data : Json) (cached : Bool) :
    Except PyError LikersResponse := do
  let likers ← data.get "data" (.arr [])
  let meta ← data.get "meta" (.obj [])
  let metaAgain ← data.get "meta" (.obj [])
  let nt ← metaAgain.get1 "next_token"
  pure { likers := likers
         meta := meta
         next_token := nt
         cached := cached
         message := none
         status_code := 200
         retry_after := none }

/-- Result of one run of the handler: the new module state, the
response (or escaping exception), and whether an upstream call was
issued. -/
structure StepResult where
  state : ServerState
  response : Except PyError LikersResponse
  calledUpstream : Bool
deriving Repr

/-- The handler `get_tweet_likers` (lines 49-125 of `main.py`), as a
function of the module state, the request parameters, the two clock
samples `now` (line 65) and `now2` (lines 95/116), and the upstream
oracle.  Control flow: cache hit returns immediately; otherwise the
cooldown gate either denies with a 429 or commits
`last_request_time = now` and issues the upstream call; non-200 status,
transport error and JSON-decode failure all yield the throttled 429
shape; a 200 body is written through to the cache (line 107) before the
response dict is built (lines 108-113). -/
def get_tweet_likers (st : ServerState) (tweet_id : String)
    (next_token : Option String) (now now2 : ℚ) (upstream : UpstreamResult) :
    StepResult :=
  match cacheLookup st.cache (cache_key tweet_id next_token) now with
  | some data =>
      { state := st
        response := buildPayloadResponse data true
        calledUpstream := false }
  | none =>
      if now - st.last_request_time < (REQUEST_INTERVAL : ℚ) then
        { state := st
          response := .ok (throttledResponse
            (pyInt ((REQUEST_INTERVAL : ℚ) - (now - st.last_request_time))))
          calledUpstream := false }
      else
        match upstream with
        | .transportError =>
            { state := { st with last_request_time := now }
              response := .ok (throttledResponse (failWait now2 now))
              calledUpstream := true }
        | .response status_code body =>
            if status_code ≠ 200 then
              { state := { st with last_request_time := now }
                response := .ok (throttledResponse (failWait now2 now))
                calledUpstream := true }
            else
              match body with
              | .error _ =>
                  { state := { st with last_request_time := now }
                    response := .ok (throttledResponse (failWait now2 now))
                    calledUpstream := true }
              | .ok data =>
                  { state := { last_request_time := now
                               cache := cacheInsert st.cache
                                 (cache_key tweet_id next_token) now2 data }
                    response := buildPayloadResponse data false
                    calledUpstream := true }

/-- One inbound request: path/query parameters, the two clock samples
the handler takes while serving it, and the upstream oracle outcome. -/
structure Request where
  tweet_id : String
  next_token : Option String
  now : ℚ
  now2 : ℚ
  upstream : UpstreamResult

/-- Run a sequence of requests from a state, collecting the gate-check
times of the requests that issued an upstream call. -/
def runTrace : ServerState → List Request → ServerState × List ℚ
  | st, [] => (st, [])
  | st, r :: rs =>
      let res := get_tweet_likers st r.tweet_id r.next_token r.now r.now2 r.upstream
      let rest := runTrace res.state rs
      (rest.1, (cond res.calledUpstream [r.now] []) ++ rest.2)

/-- Whether a JSON value is a dict. -/
def Json.isObj : Json → Bool
  | .obj _ => true
  | _ => false

/-- Total variant of Python `d.get(k, dflt)`, meaningful on dicts. -/
def Json.getD (j : Json) (k : String) (dflt : Json) : Json :=
  match j with
  | .obj fields => ((fields.find? (fun f => f.1 = k)).map Prod.snd).getD dflt
  | _ => dflt

/-- Payloads whose response dict construction cannot raise: the payload
is a dict and its `"meta"` field (when present) is a dict. -/
def wellFormedPayload (j : Json) : Bool :=
  j.isObj && (j.getD "meta" (.obj [])).isObj

/-! ## Branch characterizations of the handler -/

theorem Json.get_obj (fs : List (String × Json)) (k : String) (d : Json) :
    (Json.obj fs).get k d =
      .ok (((fs.find? (fun f => f.1 = k)).map Prod.snd).getD d) := by
  cases h : fs.find? (fun f => f.1 = k) <;> simp [Json.get, h]

theorem step_hit (st : ServerState) (tid : String) (nt : Option String)
    (now now2 : ℚ) (up : UpstreamResult) (data : Json)
    (hhit : cacheLookup st.cache (cache_key tid nt) now = some data) :
    get_tweet_likers st tid nt now now2 up =
      { state := st
        response := buildPayloadResponse data true
        calledUpstream := false } := by
  simp [get_tweet_likers, hhit]

theorem step_denied (st : ServerState) (tid : String) (nt : Option String)
    (now now2 : ℚ) (up : UpstreamResult)
    (hmiss : cacheLookup st.cache (cache_key tid nt) now = none)
    (hlt : now - st.last_request_time < (REQUEST_INTERVAL : ℚ)) :
    get_tweet_likers st tid nt now now2 up =
      { state := st
        response := .ok (throttledResponse
          (pyInt ((REQUEST_INTERVAL : ℚ) - (now - st.last_request_time))))
        calledUpstream := false } := by
  simp [get_tweet_likers, hmiss, hlt]

theorem step_transport (st : ServerState) (tid : String) (nt : Option String)
    (now now2 : ℚ)
    (hmiss : cacheLookup st.cache (cache_key tid nt) now = none)
    (hge : (REQUEST_INTERVAL : ℚ) ≤ now - st.last_request_time) :
    get_tweet_likers st tid nt now now2 .transportError =
      { state := { st with last_request_time := now }
        response := .ok (throttledResponse (failWait now2 now))
        calledUpstream := true } := by
  simp [get_tweet_likers, hmiss, not_lt.mpr hge]

theorem step_bad_status (st : ServerState) (tid : String) (nt : Option String)
    (now now2 : ℚ) (s : ℕ) (body : Except Unit Json)
    (hmiss : cacheLookup st.cache (cache_key tid nt) now = none)
    (hge : (REQUEST_INTERVAL : ℚ) ≤ now - st.last_request_time)
    (hs : s ≠ 200) :
    get_tweet_likers st tid nt now now2 (.response s body) =
      { state := { st with last_request_time := now }
        response := .ok (throttledResponse (failWait now2 now))
        calledUpstream := true } := by
  simp [get_tweet_likers, hmiss, not_lt.mpr hge, hs]

theorem step_parse_failure (st : ServerState) (tid : String) (nt : Option String)
    (now now2 : ℚ) (e : Unit)
    (hmiss : cacheLookup st.cache (cache_key tid nt) now = none)
    (hge : (REQUEST_INTERVAL : ℚ) ≤ now - st.last_request_time) :
    get_tweet_likers st tid nt now now2 (.response 200 (.error e)) =
      { state := { st with last_request_time := now }
        response := .ok (throttledResponse (failWait now2 now))
        calledUpstream := true } := by
  simp [get_tweet_likers, hmiss, not_lt.mpr hge]

theorem step_success (st : ServerState) (tid : String) (nt : Option String)
    (now now2 : ℚ) (data : Json)
    (hmiss : cacheLookup st.cache (cache_key tid nt) now = none)
    (hge : (REQUEST_INTERVAL : ℚ) ≤ now - st.last_request_time) :
    get_tweet_likers st tid nt now now2 (.response 200 (.ok data)) =
      { state := { last_request_time := now
                   cache := cacheInsert st.cache (cache_key tid nt) now2 data }
        response := buildPayloadResponse data false
        calledUpstream := true } := by
  simp [get_tweet_likers, hmiss, not_lt.mpr hge]

/-- The response dict of lines 57-62 / 108-113 built from a payload, as
a total function: `{"likers": data.get("data", []), "meta":
data.get("meta", {}), "next_token": data.get("meta",
{}).get("next_token"), "cached": c}`, HTTP 200, no message, no
`Retry-After`. -/
def payloadView (data : Json) (c : Bool) : LikersResponse :=
  { likers := data.getD "data" (.arr [])
    meta := data.getD "meta" (.obj [])
    next_token := (data.getD "meta" (.obj [])).getD "next_token" .null
    cached := c
    message := none
    status_code := 200
    retry_after := none }

theorem buildPayloadResponse_eq_ok (data : Json) (c : Bool)
    (h : wellFormedPayload data = true) :
    buildPayloadResponse data c = .ok (payloadView data c) := by
  cases data with
  | obj fields =>
      rcases hfm : fields.find? (fun f => f.1 = "meta") with _ | f
      · rcases hfd : fields.find? (fun f => f.1 = "data") with _ | g <;>
          simp [buildPayloadResponse, payloadView, Json.get1, Json.get, Json.getD,
            hfm, hfd, Except.bind, Except.map, Except.pure, Bind.bind, Functor.map, pure]
      · have hobj : ∃ mfs, f.2 = .obj mfs := by
          cases hf2 : f.2 <;>
            simp [wellFormedPayload, Json.getD, Json.isObj, hfm, hf2] at h ⊢
        rcases hobj with ⟨mfs, hmfs⟩
        rcases hfd : fields.find? (fun f => f.1 = "data") with _ | g <;>
          rcases hfn : mfs.find? (fun f => f.1 = "next_token") with _ | n <;>
          simp [buildPayloadResponse, payloadView, Json.get1, Json.get, Json.getD,
            hfm, hfd, hfn, hmfs, Except.bind, Except.map, Except.pure, Bind.bind, Functor.map, pure]
  | null => simp [wellFormedPayload, Json.isObj] at h
  | bool b => simp [wellFormedPayload, Json.isObj] at h
  | num q => simp [wellFormedPayload, Json.isObj] at h
  | str s => simp [wellFormedPayload, Json.isObj] at h
  | arr l => simp [wellFormedPayload, Json.isObj] at h

theorem pyInt_of_nonneg {q : ℚ} (h : 0 ≤ q) : pyInt q = ⌊q⌋ := by
  simp [pyInt, h]

theorem pyInt_nonneg {q : ℚ} (h : 0 ≤ q) : 0 ≤ pyInt q := by
  rw [pyInt_of_nonneg h]
  exact Int.floor_nonneg.mpr h

/-- Whenever the gate is open on a cache miss, the handler issues the
upstream call and commits `last_request_time = now`, whatever the
upstream outcome. -/
theorem step_allowed_called (st : ServerState) (tid : String) (nt : Option String)
    (now now2 : ℚ) (up : UpstreamResult)
    (hmiss : cacheLookup st.cache (cache_key tid nt) now = none)
    (hge : (REQUEST_INTERVAL : ℚ) ≤ now - st.last_request_time) :
    (get_tweet_likers st tid nt now now2 up).calledUpstream = true ∧
    (get_tweet_likers st tid nt now now2 up).state.last_request_time = now := by
  cases up with
  | transportError => rw [step_transport st tid nt now now2 hmiss hge]; exact ⟨rfl, rfl⟩
  | response s body =>
      by_cases hs : s = 200
      · subst hs
        cases body with
        | error e => rw [step_parse_failure st tid nt now now2 e hmiss hge]; exact ⟨rfl, rfl⟩
        | ok data => rw [step_success st tid nt now now2 data hmiss hge]; exact ⟨rfl, rfl⟩
      · rw [step_bad_status st tid nt now now2 s body hmiss hge hs]; exact ⟨rfl, rfl⟩

/-- Case analysis of one handler run: either no upstream call was made
and `last_request_time` is untouched, or the gate was open on a cache
miss, the call was made, and `last_request_time` was set to the
gate-check time. -/
theorem step_cases (st : ServerState) (tid : String) (nt : Option String)
    (now now2 : ℚ) (up : UpstreamResult) :
    ((get_tweet_likers st tid nt now now2 up).calledUpstream = false ∧
     (get_tweet_likers st tid nt now now2 up).state.last_request_time =
       st.last_request_time) ∨
    ((get_tweet_likers st tid nt now now2 up).calledUpstream = true ∧
     (get_tweet_likers st tid nt now now2 up).state.last_request_time = now ∧
     cacheLookup st.cache (cache_key tid nt) now = none ∧
     (REQUEST_INTERVAL : ℚ) ≤ now - st.last_request_time) := by
  rcases hc : cacheLookup st.cache (cache_key tid nt) now with _ | data
  · rcases lt_or_le (now - st.last_request_time) ((REQUEST_INTERVAL : ℚ)) with hlt | hge
    · left
      rw [step_denied st tid nt now now2 up hc hlt]
      exact ⟨rfl, rfl⟩
    · right
      have h := step_allowed_called st tid nt now now2 up hc hge
      exact ⟨h.1, h.2, rfl, hge⟩
  · left
    rw [step_hit st tid nt now now2 up data hc]
    exact ⟨rfl, rfl⟩

/-! ## The claims -/

/-- C5: `last_request_time` is mutated only on the path that issues an
upstream call, where it is set to the gate-check time (and stays set
regardless of the upstream outcome); cache hits and Denied responses
leave it unchanged.  Every run either leaves it unchanged with no
upstream call, or sets it to the gate-check time and issues the one
upstream call, the latter exactly when the cache missed and the gate was
open. -/
theorem C5_last_request_time_mutation (st : ServerState) (tid : String)
    (nt : Option String) (now now2 : ℚ) (up : UpstreamResult) :
    ((get_tweet_likers st tid nt now now2 up).calledUpstream = false ∧
     (get_tweet_likers st tid nt now now2 up).state.last_request_time =
       st.last_request_time) ∨
    ((get_tweet_likers st tid nt now now2 up).calledUpstream = true ∧
     (get_tweet_likers st tid nt now now2 up).state.last_request_time = now ∧
     cacheLookup st.cache (cache_key tid nt) now = none ∧
     (REQUEST_INTERVAL : ℚ) ≤ now - st.last_request_time) :=
  step_cases st tid nt now now2 up

/-- C2: on a cache miss the gate allows (and the handler proceeds to the
upstream call, committing `last_request_time = now`) exactly when
`now - last_request_time >= REQUEST_INTERVAL`; otherwise it returns the
throttled response whose wait is `REQUEST_INTERVAL - (now -
last_request_time)` truncated to an integer (equal to its floor, and
never negative).  With the initial sentinel `last_request_time = 0`, any
first request at `now >= REQUEST_INTERVAL` is allowed. -/
theorem C2_gate_decision (st : ServerState) (tid : String) (nt : Option String)
    (now now2 : ℚ) (up : UpstreamResult)
    (hmiss : cacheLookup st.cache (cache_key tid nt) now = none) :
    (((REQUEST_INTERVAL : ℚ) ≤ now - st.last_request_time ↔
        (get_tweet_likers st tid nt now now2 up).calledUpstream = true) ∧
     ((REQUEST_INTERVAL : ℚ) ≤ now - st.last_request_time →
        (get_tweet_likers st tid nt now now2 up).state.last_request_time = now)) ∧
    (now - st.last_request_time < (REQUEST_INTERVAL : ℚ) →
      (get_tweet_likers st tid nt now now2 up).calledUpstream = false ∧
      (get_tweet_likers st tid nt now now2 up).response =
        .ok (throttledResponse
          (pyInt ((REQUEST_INTERVAL : ℚ) - (now - st.last_request_time)))) ∧
      pyInt ((REQUEST_INTERVAL : ℚ) - (now - st.last_request_time)) =
        ⌊(REQUEST_INTERVAL : ℚ) - (now - st.last_request_time)⌋ ∧
      0 ≤ pyInt ((REQUEST_INTERVAL : ℚ) - (now - st.last_request_time))) ∧
    (st.last_request_time = 0 → (REQUEST_INTERVAL : ℚ) ≤ now →
      (get_tweet_likers st tid nt now now2 up).calledUpstream = true) := by
  rcases lt_or_le (now - st.last_request_time) ((REQUEST_INTERVAL : ℚ)) with hlt | hge
  · have hstep := step_denied st tid nt now now2 up hmiss hlt
    have hq : (0 : ℚ) ≤ (REQUEST_INTERVAL : ℚ) - (now - st.last_request_time) := by
      linarith
    refine ⟨⟨?_, ?_⟩, ?_, ?_⟩
    · constructor
      · intro h; exact absurd h (not_le.mpr hlt)
      · intro h; rw [hstep] at h; exact absurd h (by simp)
    · intro h; exact absurd h (not_le.mpr hlt)
    · intro _
      rw [hstep]
      exact ⟨rfl, rfl, pyInt_of_nonneg hq, pyInt_nonneg hq⟩
    · intro h0 hnow
      exact absurd (by rw [h0] at hlt; simpa using hlt) (not_lt.mpr hnow)
  · have h := step_allowed_called st tid nt now now2 up hmiss hge
    refine ⟨⟨⟨fun _ => h.1, fun _ => hge⟩, fun _ => h.2⟩, ?_, fun _ _ => h.1⟩
    intro hlt
    exact absurd hge (not_le.mpr hlt)

/-- C2 witness: from the initial state (empty cache, sentinel 0), a
request at `now = 1000` is allowed and issues the upstream call. -/
theorem C2_gate_decision_witness :
    (get_tweet_likers initialState "42" none 1000 1000 .transportError).calledUpstream
      = true :=
  ((C2_gate_decision initialState "42" none 1000 1000 .transportError rfl).1.1).mp
    (by norm_num [initialState, REQUEST_INTERVAL])

/-- C3: a non-expired cache entry is returned as-is (`cached: true`,
HTTP 200), the state (both the cache and `last_request_time`) is
untouched and no upstream call is made; the gate is not consulted. -/
theorem C3_cache_hit_bypasses_gate (st : ServerState) (tid : String)
    (nt : Option String) (now now2 : ℚ) (up : UpstreamResult) (data : Json)
    (hhit : cacheLookup st.cache (cache_key tid nt) now = some data) :
    (get_tweet_likers st tid nt now now2 up).state = st ∧
    (get_tweet_likers st tid nt now now2 up).calledUpstream = false ∧
    (wellFormedPayload data = true →
      (get_tweet_likers st tid nt now now2 up).response =
        .ok (payloadView data true) ∧
      (payloadView data true).cached = true ∧
      (payloadView data true).status_code = 200) := by
  rw [step_hit st tid nt now now2 up data hhit]
  exact ⟨rfl, rfl, fun h => ⟨buildPayloadResponse_eq_ok data true h, rfl, rfl⟩⟩

/-- C3 witness: a state holding a fresh entry for `("42", none)` serves
it at `now = 10` without touching the state or calling upstream. -/
theorem C3_cache_hit_bypasses_gate_witness :
    (get_tweet_likers ⟨0, [⟨"42_none", 0, .obj []⟩]⟩ "42" none 10 10
        .transportError).state = ⟨0, [⟨"42_none", 0, .obj []⟩]⟩ ∧
    (get_tweet_likers ⟨0, [⟨"42_none", 0, .obj []⟩]⟩ "42" none 10 10
        .transportError).calledUpstream = false := by
  have hhit : cacheLookup (ServerState.mk 0 [⟨"42_none", 0, .obj []⟩]).cache
      (cache_key "42" none) 10 = some (.obj []) := by
    show cacheLookup [⟨"42_none", 0, .obj []⟩] "42_none" 10 = some (.obj [])
    simp only [cacheLookup, CACHE_TTL, List.find?]
    norm_num
  have h := C3_cache_hit_bypasses_gate _ "42" none 10 10 .transportError _ hhit
  exact ⟨h.1, h.2.1⟩

/-- C4: when the gate allows but the upstream call fails (non-200 status
or transport error), the handler returns the 429 throttled shape with
empty likers, `{result_count: 0}` meta, null cursor, `cached: false` and
`Retry-After` equal to `int(REQUEST_INTERVAL - (now2 - now))` (elapsed
measured against the just-committed `last_request_time = now`), replaced
by the full `REQUEST_INTERVAL` when negative; and the cache is left
unchanged. -/
theorem C4_upstream_failure_throttled (st : ServerState) (tid : String)
    (nt : Option String) (now now2 : ℚ) (up : UpstreamResult)
    (hmiss : cacheLookup st.cache (cache_key tid nt) now = none)
    (hge : (REQUEST_INTERVAL : ℚ) ≤ now - st.last_request_time)
    (hfail : up = .transportError ∨ ∃ s body, up = .response s body ∧ s ≠ 200) :
    ∃ w : ℤ,
      w = (if pyInt ((REQUEST_INTERVAL : ℚ) - (now2 - now)) < 0 then REQUEST_INTERVAL
           else pyInt ((REQUEST_INTERVAL : ℚ) - (now2 - now))) ∧
      (get_tweet_likers st tid nt now now2 up).response =
        .ok (throttledResponse w) ∧
      (get_tweet_likers st tid nt now now2 up).state.cache = st.cache ∧
      (get_tweet_likers st tid nt now now2 up).state.last_request_time = now ∧
      (throttledResponse w).likers = .arr [] ∧
      (throttledResponse w).meta = .obj [("result_count", .num 0)] ∧
      (throttledResponse w).next_token = .null ∧
      (throttledResponse w).cached = false ∧
      (throttledResponse w).status_code = 429 ∧
      (throttledResponse w).retry_after = some w := by
  refine ⟨failWait now2 now, rfl, ?_⟩
  rcases hfail with rfl | ⟨s, body, rfl, hs⟩
  · rw [step_transport st tid nt now now2 hmiss hge]
    exact ⟨rfl, rfl, rfl, rfl, rfl, rfl, rfl, rfl, rfl⟩
  · rw [step_bad_status st tid nt now now2 s body hmiss hge hs]
    exact ⟨rfl, rfl, rfl, rfl, rfl, rfl, rfl, rfl, rfl⟩

/-- C4 witness (the spec's Scenario B): upstream 503 right after the
gate opened at `now = now2 = 1000` yields a 429 with `Retry-After
= 300` and no cache write. -/
theorem C4_upstream_failure_throttled_witness :
    (get_tweet_likers initialState "42" none 1000 1000
        (.response 503 (.ok .null))).response =
      .ok (throttledResponse 300) ∧
    (get_tweet_likers initialState "42" none 1000 1000
        (.response 503 (.ok .null))).state.cache = initialState.cache := by
  have h := C4_upstream_failure_throttled initialState "42" none 1000 1000
    (.response 503 (.ok .null)) rfl
    (by norm_num [initialState, REQUEST_INTERVAL])
    (Or.inr ⟨503, .ok .null, rfl, by norm_num⟩)
  rcases h with ⟨w, hw, hresp, hcache, -⟩
  have hw300 : w = 300 := by
    rw [hw, pyInt_of_nonneg (by norm_num [REQUEST_INTERVAL])]
    norm_num [REQUEST_INTERVAL]
  rw [hw300] at hresp
  exact ⟨hresp, hcache⟩

/-- Every upstream call recorded while running a trace happened at
least `REQUEST_INTERVAL` after the starting state's timestamp. -/
theorem runTrace_calls_lb (rs : List Request) (st : ServerState) :
    ∀ t ∈ (runTrace st rs).2,
      st.last_request_time + (REQUEST_INTERVAL : ℚ) ≤ t := by
  induction rs generalizing st with
  | nil => simp [runTrace]
  | cons r rs ih =>
      intro t ht
      have h300 : (0 : ℚ) ≤ (REQUEST_INTERVAL : ℚ) := by norm_num [REQUEST_INTERVAL]
      simp only [runTrace, List.mem_append] at ht
      rcases step_cases st r.tweet_id r.next_token r.now r.now2 r.upstream with
        ⟨hcu, hlast⟩ | ⟨hcu, hlast, -, hge⟩
      · rw [hcu] at ht
        simp only [Bool.cond_false, List.not_mem_nil, false_or] at ht
        have := ih _ t ht
        rw [hlast] at this
        exact this
      · rw [hcu] at ht
        simp only [Bool.cond_true, List.mem_singleton] at ht
        rcases ht with rfl | ht
        · linarith
        · have := ih _ t ht
          rw [hlast] at this
          linarith

/-- The recorded gate-check times of upstream calls along a trace are
pairwise separated by at least `REQUEST_INTERVAL`. -/
theorem runTrace_calls_sep (rs : List Request) (st : ServerState) :
    (runTrace st rs).2.Pairwise
      (fun t t' => t + (REQUEST_INTERVAL : ℚ) ≤ t') := by
  induction rs generalizing st with
  | nil => simp [runTrace]
  | cons r rs ih =>
      simp only [runTrace]
      rcases step_cases st r.tweet_id r.next_token r.now r.now2 r.upstream with
        ⟨hcu, hlast⟩ | ⟨hcu, hlast, -, hge⟩
      · rw [hcu]
        simpa using ih _
      · rw [hcu]
        simp only [Bool.cond_true, List.singleton_append]
        refine List.Pairwise.cons ?_ (ih _)
        intro b hb
        have := runTrace_calls_lb rs _ b hb
        rw [hlast] at this
        exact this

/-- C1: along any sequence of handled requests starting from the
initial state, the gate-check times of any two requests that reach the
upstream-call step are at least `REQUEST_INTERVAL` apart (attempt to
attempt, regardless of outcome): no later upstream call happens at a
time `t'` with `t' - t < REQUEST_INTERVAL` of an earlier one. -/
theorem C1_upstream_calls_separated (rs : List Request) :
    (runTrace initialState rs).2.Pairwise
      (fun t t' => (REQUEST_INTERVAL : ℚ) ≤ t' - t) :=
  (runTrace_calls_sep rs initialState).imp (fun h => by linarith)

/-- Lookup after `cacheInsert`: the fresh entry is visible exactly
until its TTL elapses. -/
theorem cacheLookup_insert (c : List CacheEntry) (k : String) (t T : ℚ) (v : Json) :
    cacheLookup (cacheInsert c k t v) k T =
      if T - t < CACHE_TTL then some v else none := by
  simp [cacheLookup, cacheInsert, List.find?]

/-- C6: a successful (HTTP 200) upstream call stores the parsed payload
in the cache; lookups of the same fingerprint hit (returning exactly the
stored payload) strictly before the TTL elapses and miss from the TTL
boundary on; and a subsequent identical request inside the TTL is served
from the cache with a payload identical to the one returned to the
triggering caller (the `cached` flag apart). -/
theorem C6_write_through_ttl (st : ServerState) (tid : String)
    (nt : Option String) (now now2 T T2 : ℚ) (data : Json) (up2 : UpstreamResult)
    (hmiss : cacheLookup st.cache (cache_key tid nt) now = none)
    (hge : (REQUEST_INTERVAL : ℚ) ≤ now - st.last_request_time) :
    (T - now2 < CACHE_TTL →
      cacheLookup
        (get_tweet_likers st tid nt now now2 (.response 200 (.ok data))).state.cache
        (cache_key tid nt) T = some data) ∧
    (CACHE_TTL ≤ T - now2 →
      cacheLookup
        (get_tweet_likers st tid nt now now2 (.response 200 (.ok data))).state.cache
        (cache_key tid nt) T = none) ∧
    (wellFormedPayload data = true → T - now2 < CACHE_TTL →
      (get_tweet_likers st tid nt now now2 (.response 200 (.ok data))).response =
        .ok (payloadView data false) ∧
      (get_tweet_likers
          (get_tweet_likers st tid nt now now2 (.response 200 (.ok data))).state
          tid nt T T2 up2).response = .ok (payloadView data true) ∧
      (payloadView data true).likers = (payloadView data false).likers ∧
      (payloadView data true).meta = (payloadView data false).meta ∧
      (payloadView data true).next_token = (payloadView data false).next_token ∧
      (payloadView data true).cached = true ∧
      (payloadView data true).status_code = 200) := by
  have hstep := step_success st tid nt now now2 data hmiss hge
  refine ⟨?_, ?_, ?_⟩
  · intro hT
    rw [hstep, cacheLookup_insert, if_pos hT]
  · intro hT
    rw [hstep, cacheLookup_insert, if_neg (not_lt.mpr hT)]
  · intro hwf hT
    have hhit : cacheLookup
        (get_tweet_likers st tid nt now now2 (.response 200 (.ok data))).state.cache
        (cache_key tid nt) T = some data := by
      rw [hstep, cacheLookup_insert, if_pos hT]
    refine ⟨?_, ?_, rfl, rfl, rfl, rfl, rfl⟩
    · rw [hstep]
      exact buildPayloadResponse_eq_ok data false hwf
    · rw [step_hit _ tid nt T T2 up2 data hhit]
      exact buildPayloadResponse_eq_ok data true hwf

/-- C6 witness: a 200 with payload `{}` at `now = now2 = 1000` is cached
and a lookup at `T = 1500 < 1000 + 900` hits, while a lookup at
`T = 1900` misses; the repeat request at `T = 1500` is served from the
cache with the same payload. -/
theorem C6_write_through_ttl_witness :
    cacheLookup
      (get_tweet_likers initialState "42" none 1000 1000
          (.response 200 (.ok (.obj [])))).state.cache
      (cache_key "42" none) 1500 = some (.obj []) ∧
    cacheLookup
      (get_tweet_likers initialState "42" none 1000 1000
          (.response 200 (.ok (.obj [])))).state.cache
      (cache_key "42" none) 1900 = none ∧
    (get_tweet_likers
        (get_tweet_likers initialState "42" none 1000 1000
            (.response 200 (.ok (.obj [])))).state
        "42" none 1500 1500 .transportError).response =
      .ok (payloadView (.obj []) true) := by
  have h1500 := C6_write_through_ttl initialState "42" none 1000 1000 1500 1500
    (.obj []) .transportError rfl (by norm_num [initialState, REQUEST_INTERVAL])
  have h1900 := C6_write_through_ttl initialState "42" none 1000 1000 1900 1900
    (.obj []) .transportError rfl (by norm_num [initialState, REQUEST_INTERVAL])
  refine ⟨h1500.1 (by norm_num [CACHE_TTL]), h1900.2.1 (by norm_num [CACHE_TTL]), ?_⟩
  exact (h1500.2.2 (by simp [wellFormedPayload, Json.isObj, Json.getD])
    (by norm_num [CACHE_TTL])).2.1

/-- C7 counterexample: the key derivation collides.  `("a", None)` and
`("a", Some "none")` are distinct queries but share the cache key
`"a_none"`, so the mapping is not injective on all string identifiers
and optional string cursors. -/
theorem C7_cache_key_collision :
    cache_key "a" (some "none") = cache_key "a" none ∧
    (some "none" : Option String) ≠ none := by
  exact ⟨rfl, by simp⟩

/-- Splitting a list at a separator that occurs in neither prefix is
unambiguous. -/
theorem append_cons_eq_of_not_mem {α : Type} (x : α) (l1 : List α) :
    ∀ (l2 r1 r2 : List α), x ∉ l1 → x ∉ l2 →
      l1 ++ x :: r1 = l2 ++ x :: r2 → l1 = l2 ∧ r1 = r2 := by
  induction l1 with
  | nil =>
      intro l2 r1 r2 _ h2 h
      cases l2 with
      | nil => exact ⟨rfl, by simpa using h⟩
      | cons b l2 =>
          simp only [List.nil_append, List.cons_append, List.cons.injEq] at h
          rcases h with ⟨rfl, -⟩
          exact absurd (List.mem_cons_self x l2) h2
  | cons a l1 ih =>
      intro l2 r1 r2 h1 h2 h
      cases l2 with
      | nil =>
          simp only [List.nil_append, List.cons_append, List.cons.injEq] at h
          rcases h with ⟨rfl, -⟩
          exact absurd (List.mem_cons_self a l1) h1
      | cons b l2 =>
          simp only [List.cons_append, List.cons.injEq] at h
          rcases h with ⟨rfl, h⟩
          have h1' : x ∉ l1 := fun hx => h1 (List.mem_cons_of_mem a hx)
          have h2' : x ∉ l2 := fun hx => h2 (List.mem_cons_of_mem a hx)
          obtain ⟨rfl, rfl⟩ := ih l2 r1 r2 h1' h2' h
          exact ⟨rfl, rfl⟩

/-- Cursor values whose encoding in the key is unambiguous: not the
empty string (which Python's `or` replaces by `"none"`) and not the
literal `"none"` (the encoding of an absent cursor). -/
def cursorOk : Option String → Prop
  | none => True
  | some s => s ≠ "" ∧ s ≠ "none"

/-- The cursor as it is interpolated into the key: `next_token or 'none'`. -/
def encodeCursor : Option String → String
  | some s => if s = "" then "none" else s
  | none => "none"

theorem cache_key_eq_append (tid : String) (c : Option String) :
    cache_key tid c = tid ++ "_" ++ encodeCursor c := by
  cases c with
  | none => rfl
  | some s => by_cases hs : s = "" <;> simp [cache_key, encodeCursor, hs]

theorem encodeCursor_injOn {c1 c2 : Option String}
    (hc1 : cursorOk c1) (hc2 : cursorOk c2)
    (h : encodeCursor c1 = encodeCursor c2) : c1 = c2 := by
  cases c1 with
  | none =>
      cases c2 with
      | none => rfl
      | some s2 =>
          rcases hc2 with ⟨hne, hnone⟩
          rw [encodeCursor, encodeCursor, if_neg hne] at h
          exact absurd h.symm hnone
  | some s1 =>
      rcases hc1 with ⟨hne1, hnone1⟩
      cases c2 with
      | none =>
          rw [encodeCursor, encodeCursor, if_neg hne1] at h
          exact absurd h hnone1
      | some s2 =>
          rcases hc2 with ⟨hne2, -⟩
          rw [encodeCursor, encodeCursor, if_neg hne1, if_neg hne2] at h
          rw [h]

/-- C7 amended: the key derivation `tweet_id + "_" + (cursor or "none")`
is injective once restricted to tweet ids that do not contain the
delimiter `'_'` and to cursors that are neither empty nor the literal
`"none"`; with underscores in the tweet id, or with the cursor values
`""`/`"none"`, distinct queries can share a key. -/
theorem C7_cache_key_injective_restricted (t1 t2 : String)
    (c1 c2 : Option String)
    (h1 : '_' ∉ t1.data) (h2 : '_' ∉ t2.data)
    (hc1 : cursorOk c1) (hc2 : cursorOk c2)
    (heq : cache_key t1 c1 = cache_key t2 c2) : t1 = t2 ∧ c1 = c2 := by
  rw [cache_key_eq_append, cache_key_eq_append] at heq
  have hdata : t1.data ++ '_' :: (encodeCursor c1).data =
      t2.data ++ '_' :: (encodeCursor c2).data := by
    have := congrArg String.data heq
    simpa [String.data_append] using this
  obtain ⟨ht, hc⟩ := append_cons_eq_of_not_mem '_' t1.data t2.data
    (encodeCursor c1).data (encodeCursor c2).data h1 h2 hdata
  refine ⟨String.ext ht, encodeCursor_injOn hc1 hc2 (String.ext hc)⟩

/-- C7 witness: the restricted injectivity applied at the concrete
query `("123", Some "abc")` against itself. -/
theorem C7_cache_key_injective_restricted_witness :
    "123" = "123" ∧ (some "abc" : Option String) = some "abc" :=
  C7_cache_key_injective_restricted "123" "123" (some "abc") (some "abc")
    (by decide) (by decide) (by simp [cursorOk]) (by simp [cursorOk]) rfl

/-- C8 counterexample: with `last_request_time = 1000`, the Denied
responses at `now = 1000.5` and `now = 1000.75` both report a wait of
299 seconds — `int()` truncation keeps the reported wait constant under
sub-second advances, so it does not strictly decrease as `now`
advances. -/
theorem C8_wait_not_strictly_decreasing :
    (get_tweet_likers ⟨1000, []⟩ "42" none (2001/2) (2001/2)
        .transportError).response = .ok (throttledResponse 299) ∧
    (get_tweet_likers ⟨1000, []⟩ "42" none (4003/4) (4003/4)
        .transportError).response = .ok (throttledResponse 299) ∧
    (2001/2 : ℚ) < 4003/4 := by
  refine ⟨?_, ?_, by norm_num⟩
  · rw [step_denied ⟨1000, []⟩ "42" none (2001/2) (2001/2) .transportError rfl
      (by norm_num [REQUEST_INTERVAL])]
    norm_num [pyInt, REQUEST_INTERVAL]
  · rw [step_denied ⟨1000, []⟩ "42" none (4003/4) (4003/4) .transportError rfl
      (by norm_num [REQUEST_INTERVAL])]
    norm_num [pyInt, REQUEST_INTERVAL]

/-- C8 amended: holding `last_request_time` fixed, the reported wait of
Denied responses is non-increasing as `now` advances, strictly decreases
whenever `now` advances by at least one full second (truncation can keep
it constant under sub-second advances), equals 0 exactly in the final
second of the window, and at the boundary `now = last_request_time +
REQUEST_INTERVAL` the gate allows, so no Denied response is produced
there. -/
theorem C8_wait_time_monotonicity (st : ServerState) (tid : String)
    (nt : Option String) (now1 now1b now2 now2b : ℚ) (up1 up2 : UpstreamResult)
    (hmiss1 : cacheLookup st.cache (cache_key tid nt) now1 = none)
    (hmiss2 : cacheLookup st.cache (cache_key tid nt) now2 = none)
    (hle : now1 ≤ now2)
    (hlt : now2 - st.last_request_time < (REQUEST_INTERVAL : ℚ)) :
    ∃ w1 w2 : ℤ,
      (get_tweet_likers st tid nt now1 now1b up1).response =
        .ok (throttledResponse w1) ∧
      (get_tweet_likers st tid nt now2 now2b up2).response =
        .ok (throttledResponse w2) ∧
      w2 ≤ w1 ∧
      (1 ≤ now2 - now1 → w2 < w1) ∧
      (w2 = 0 ↔ (REQUEST_INTERVAL : ℚ) - 1 < now2 - st.last_request_time) ∧
      (∀ nb upb,
        cacheLookup st.cache (cache_key tid nt)
          (st.last_request_time + (REQUEST_INTERVAL : ℚ)) = none →
        (get_tweet_likers st tid nt
            (st.last_request_time + (REQUEST_INTERVAL : ℚ)) nb
            upb).calledUpstream = true) := by
  have hlt1 : now1 - st.last_request_time < (REQUEST_INTERVAL : ℚ) := by linarith
  have hq1 : (0 : ℚ) ≤ (REQUEST_INTERVAL : ℚ) - (now1 - st.last_request_time) := by
    linarith
  have hq2 : (0 : ℚ) ≤ (REQUEST_INTERVAL : ℚ) - (now2 - st.last_request_time) := by
    linarith
  refine ⟨pyInt ((REQUEST_INTERVAL : ℚ) - (now1 - st.last_request_time)),
    pyInt ((REQUEST_INTERVAL : ℚ) - (now2 - st.last_request_time)),
    ?_, ?_, ?_, ?_, ?_, ?_⟩
  · rw [step_denied st tid nt now1 now1b up1 hmiss1 hlt1]
  · rw [step_denied st tid nt now2 now2b up2 hmiss2 hlt]
  · rw [pyInt_of_nonneg hq1, pyInt_of_nonneg hq2]
    exact Int.floor_le_floor (by linarith)
  · intro hgap
    rw [pyInt_of_nonneg hq1, pyInt_of_nonneg hq2]
    calc ⌊(REQUEST_INTERVAL : ℚ) - (now2 - st.last_request_time)⌋
        ≤ ⌊((REQUEST_INTERVAL : ℚ) - (now1 - st.last_request_time)) - 1⌋ :=
          Int.floor_le_floor (by linarith)
      _ = ⌊(REQUEST_INTERVAL : ℚ) - (now1 - st.last_request_time)⌋ - 1 := by
          rw [show ((1 : ℚ)) = ((1 : ℤ) : ℚ) by norm_num, Int.floor_sub_int]
      _ < ⌊(REQUEST_INTERVAL : ℚ) - (now1 - st.last_request_time)⌋ := by omega
  · rw [pyInt_of_nonneg hq2]
    constructor
    · intro h0
      have hlt1' := Int.lt_floor_add_one
        ((REQUEST_INTERVAL : ℚ) - (now2 - st.last_request_time))
      rw [h0] at hlt1'
      push_cast at hlt1'
      linarith
    · intro h
      have hsmall : (REQUEST_INTERVAL : ℚ) - (now2 - st.last_request_time) < 1 := by
        linarith
      rw [Int.floor_eq_zero_iff]
      exact Set.mem_Ico.mpr ⟨hq2, hsmall⟩
  · intro nb upb hm
    exact (step_allowed_called st tid nt _ nb upb hm (by linarith)).1

/-- C8 witness: the amended monotonicity applied with
`last_request_time = 1000` at `now1 = 1000.5` and `now2 = 1299.5`. -/
theorem C8_wait_time_monotonicity_witness :
    ∃ w1 w2 : ℤ,
      (get_tweet_likers ⟨1000, []⟩ "42" none (2001/2) (2001/2)
          .transportError).response = .ok (throttledResponse w1) ∧
      (get_tweet_likers ⟨1000, []⟩ "42" none (2599/2) (2599/2)
          .transportError).response = .ok (throttledResponse w2) ∧
      w2 ≤ w1 ∧
      (1 ≤ (2599/2 : ℚ) - 2001/2 → w2 < w1) ∧
      (w2 = 0 ↔ (REQUEST_INTERVAL : ℚ) - 1 < (2599/2 : ℚ) - 1000) ∧
      (∀ nb upb,
        cacheLookup [] (cache_key "42" none) ((1000 : ℚ) + (REQUEST_INTERVAL : ℚ))
          = none →
        (get_tweet_likers ⟨1000, []⟩ "42" none
            ((1000 : ℚ) + (REQUEST_INTERVAL : ℚ)) nb upb).calledUpstream = true) :=
  C8_wait_time_monotonicity ⟨1000, []⟩ "42" none (2001/2) (2001/2) (2599/2) (2599/2)
    .transportError .transportError rfl rfl (by norm_num)
    (by norm_num [REQUEST_INTERVAL])

/-- C9 counterexample: an upstream 200 whose body parses to a JSON
array (a non-dict) makes the handler raise `AttributeError` at
`data.get("data", [])`, which `except requests.RequestException` does
not catch — the fault escapes to the transport layer instead of being
normalized into the 429 shape. -/
theorem C9_non_object_payload_raises :
    (get_tweet_likers initialState "42" none 1000 1000
        (.response 200 (.ok (.arr [])))).response = .error .attributeError := by
  rw [step_success initialState "42" none 1000 1000 (.arr []) rfl
    (by norm_num [initialState, REQUEST_INTERVAL])]
  rfl

/-- C9 amended: every upstream outcome other than a 2xx body parsing to
a non-dict is normalized: transport errors, non-200 statuses and
JSON-decode failures (which raise `requests.JSONDecodeError`, a
`RequestException`) all yield the uniform 429 throttled response, and a
200 with a well-formed dict payload yields the 200 payload response;
but a 200 body parsing to a non-dict raises an uncaught
`AttributeError`. -/
theorem C9_upstream_outcomes_normalized (st : ServerState) (tid : String)
    (nt : Option String) (now now2 : ℚ) (up : UpstreamResult)
    (hmiss : cacheLookup st.cache (cache_key tid nt) now = none)
    (hge : (REQUEST_INTERVAL : ℚ) ≤ now - st.last_request_time) :
    ((up = .transportError ∨ (∃ s body, up = .response s body ∧ s ≠ 200) ∨
        (∃ e, up = .response 200 (.error e))) →
      (get_tweet_likers st tid nt now now2 up).response =
        .ok (throttledResponse (failWait now2 now))) ∧
    (∀ data, up = .response 200 (.ok data) → wellFormedPayload data = true →
      (get_tweet_likers st tid nt now now2 up).response =
        .ok (payloadView data false)) := by
  constructor
  · rintro (rfl | ⟨s, body, rfl, hs⟩ | ⟨e, rfl⟩)
    · rw [step_transport st tid nt now now2 hmiss hge]
    · rw [step_bad_status st tid nt now now2 s body hmiss hge hs]
    · rw [step_parse_failure st tid nt now now2 e hmiss hge]
  · rintro data rfl hwf
    rw [step_success st tid nt now now2 data hmiss hge]
    exact buildPayloadResponse_eq_ok data false hwf

/-- C9 witness: a transport error from the initial state at `now = now2
= 1000` is normalized into the throttled 429 shape. -/
theorem C9_upstream_outcomes_normalized_witness :
    (get_tweet_likers initialState "42" none 1000 1000 .transportError).response =
      .ok (throttledResponse (failWait 1000 1000)) :=
  (C9_upstream_outcomes_normalized initialState "42" none 1000 1000 .transportError
      rfl (by norm_num [initialState, REQUEST_INTERVAL])).1 (Or.inl rfl)

end TweetLikers
